import Mathlib

/-!
Verification of the query helpers in `pyrevitlib/pyrevit/revit/db/query.py`.

The module is a flat collection of query functions over a host (Revit)
document object model.  We embed the document state reachable by the
functions under scrutiny as plain Lean structures: a document carries the
element, sheet, category, workset, view and parameter-binding collections
that the Python code enumerates through `FilteredElementCollector` and
friends.  Host API calls that the Python code merely forwards to
(`Curve.Intersect`, `TransmissionData.ReadTransmissionData`,
`LookupParameter` raising, ...) are passed in as explicit function
arguments, since their behaviour is owned by the host application.

Python-level conventions modelled explicitly:
* `None` and falsy values: optional data is `Option`, truthiness of lists is
  non-emptiness, truthiness of strings is non-emptiness, truthiness of
  integers is being non-zero.
* raised exceptions: `Except PyErr` with `PyErr.pyRevit` for
  `PyRevitException` and `PyErr.host` for host (.NET) exception types.
* `sub in s` on strings: contiguous-substring test (`pyIn`).
-/

namespace Query

/-- Python string membership test: `sub in s` holds exactly when `sub` is a
contiguous substring of `s`. -/
def pyIn (sub s : String) : Bool := decide (sub.data <:+: s.data)

/-- Storage of one Revit parameter, by `DB.StorageType`.  `AsString` may
return null for a string-typed parameter, hence the `Option`. -/
inductive Param where
  | double (v : ℚ)
  | int (v : ℤ)
  | str (v : Option String)
  | elemId (v : ℤ)
deriving DecidableEq

/-- Dynamic Python value produced by reading a parameter. -/
inductive PyV where
  | double (v : ℚ)
  | int (v : ℤ)
  | str (s : String)
  | eid (v : ℤ)
  | pynone
deriving DecidableEq

/-- Embedding of `get_param_value` (query.py 173-183): dispatch on the
storage type of the parameter; a null `AsString` result is Python `None`. -/
def get_param_value : Param → PyV
  | .double v => .double v
  | .int v => .int v
  | .str (some s) => .str s
  | .str none => .pynone
  | .elemId v => .eid v

/-- A model element as seen by the parameter queries: an identity and its
named parameters. -/
structure Element where
  id : Nat
  params : List (String × Param)
deriving DecidableEq

/-- Embedding of `DB.Element.LookupParameter`: the first parameter carried
by the element under the given name, or null. -/
def Element.lookupParameter (e : Element) (name : String) : Option Param :=
  (e.params.find? (fun kv => kv.1 == name)).map (fun kv => kv.2)

/-- A document category; Revit categories carry one level of
subcategories, which are themselves categories. -/
inductive Category where
  | mk (name : String) (idInt : ℤ) (subCategories : List Category)

/-- Name of a category. -/
def Category.name : Category → String
  | .mk n _ _ => n

/-- Integer value of the category id (`Id.IntegerValue`). -/
def Category.idInt : Category → ℤ
  | .mk _ i _ => i

/-- Subcategories of a category. -/
def Category.subCategories : Category → List Category
  | .mk _ _ s => s

/-- A model element as seen by the category queries: its category and
whether it is an element type. -/
structure CatElement where
  id : Nat
  category : Category
  isElementType : Bool

/-- A viewport placed on a sheet (`GetAllViewports` yields its id; the
viewport resolves to a view via `ViewId`). -/
structure Viewport where
  id : Nat
  viewId : Nat
deriving DecidableEq

/-- A sheet (`DB.ViewSheet`): number, placeholder flag, the
`SHEET_SCHEDULED` parameter value and its viewports. -/
structure ViewSheet where
  id : Nat
  sheetNumber : String
  isPlaceholder : Bool
  sheetScheduled : ℤ
  viewports : List Viewport
deriving DecidableEq

/-- A `DB.ScheduleSheetInstance`: which view owns it and which schedule it
instantiates. -/
structure SchedInst where
  id : Nat
  ownerViewId : Nat
  scheduleId : Nat
deriving DecidableEq

/-- A workset, as consumed by `find_workset`: only the name matters. -/
structure Workset where
  name : String
deriving DecidableEq

/-- Result shape built by `get_project_parameters` out of the parameter
bindings (the `db.ProjectParameter` wrapper, restricted to the fields the
queries read: the definition name and the parameter id). -/
structure ProjectParameter where
  name : String
  param_id : ℤ
deriving DecidableEq

/-- The errors surfaced by the module: `PyRevitException` with a message,
or an underlying host (.NET) exception. -/
inductive PyErr where
  | pyRevit (msg : String)
  | host (msg : String)
deriving DecidableEq

/-- An element enumerated inside a view by the reference queries: optional
category, the optional `REFERENCE_VIEWER_TARGET_VIEW` parameter (as an
element id), and its name. -/
structure RefEl where
  id : Nat
  category : Option Category
  targetViewParam : Option Nat
  name : String

/-- View kinds distinguished by `can_refer_other_views` (isinstance checks
against `DB.ViewDrafting`, `DB.ViewPlan`, `DB.ViewSection`). -/
inductive ViewKind where
  | drafting
  | plan
  | section
  | legend
  | schedule
  | other
deriving DecidableEq

/-- A view: identity, name, kind and the elements its collector yields. -/
structure View where
  id : Nat
  name : String
  kind : ViewKind
  elementsInView : List RefEl

/-- The host document state reachable by the embedded queries.  Each field
is the collection a `FilteredElementCollector` query of the corresponding
Python function enumerates. -/
structure Doc where
  elements : List Element := []
  sheets : List ViewSheet := []
  paramBindings : List (String × ℤ) := []
  isFamilyDocument : Bool := false
  categories : List Category := []
  catElements : List CatElement := []
  schedInstances : List SchedInst := []
  titleblockRevScheds : List Nat := []
  worksets : List Workset := []
  views : List View := []
  familyTypes : List String := []
  familyParams : List String := []
  pathName : String := ""
  linkElements : List Nat := []

/-- Argument accepted by `get_category` and `get_builtincategory`: the
Python functions dispatch on `isinstance` over a string, a built-in
category enum member, an element id, or a category object. -/
inductive CatOrId where
  | name (s : String)
  | builtin (b : ℤ)
  | elemId (i : ℤ)
  | categoryObj (c : Category)

/-- Embedding of `get_doc_categories` (query.py 643-650): the document
categories followed by every category's subcategories. -/
def get_doc_categories (doc : Doc) : List Category :=
  doc.categories ++ doc.categories.flatMap Category.subCategories

/-- Embedding of `get_category` (query.py 683-695): dispatch on the
argument kind; a string scans by name, a built-in category scans by id
value, a category object is returned as is, anything else (such as an
element id) falls through every isinstance branch to `None`. -/
def get_category (doc : Doc) : CatOrId → Option Category
  | .name s => (get_doc_categories doc).find? (fun c => c.name == s)
  | .builtin b => (get_doc_categories doc).find? (fun c => c.idInt == b)
  | .categoryObj c => some c
  | .elemId _ => none

/-- Embedding of `get_builtincategory` (query.py 698-710).  `bicValues` is
the host enumeration `DB.BuiltInCategory.GetValues`, as the list of the
member integer values.  Only a string or an element id produce a category
id (a category object falls through both isinstance branches); a zero id
is falsy and skips the enum scan. -/
def get_builtincategory (bicValues : List ℤ) (doc : Doc) (arg : CatOrId) :
    Option ℤ :=
  let cat_id : Option ℤ :=
    match arg with
    | .name s =>
      match get_category doc (.name s) with
      | some c => some c.idInt
      | none => none
    | .elemId i => some i
    | _ => none
  match cat_id with
  | some cid => if cid ≠ 0 then bicValues.find? (fun b => b == cid) else none
  | none => none

/-- Loop-body predicate of the caller-supplied branch of
`get_elements_by_category`: the element category name resolves to a
built-in category that is among the requested ones. -/
def catElMatch (bicValues element_bicats : List ℤ) (doc : Doc)
    (x : CatElement) : Bool :=
  match get_builtincategory bicValues doc (.name x.category.name) with
  | some b => element_bicats.contains b
  | none => false

/-- Embedding of `get_elements_by_category` (query.py 248-262).  Python
`if elements:` is truthy only for a non-empty list, so `None` and the
empty list both take the collector branch, which keeps the non-type
document elements whose category id eqKey one of the requested built-in
categories. -/
def get_elements_by_category (bicValues element_bicats : List ℤ)
    (elements : Option (List CatElement)) (doc : Doc) : List CatElement :=
  match elements with
  | some (e :: rest) =>
    (e :: rest).filter (catElMatch bicValues element_bicats doc)
  | _ =>
    doc.catElements.filter (fun x =>
      element_bicats.contains x.category.idInt && !x.isElementType)

/-- Loop-body predicate of `get_elements_by_parameter` (query.py 215-226):
an element is appended when its parameter exists and either the
partial-match conjunction holds or the queried value equals the parameter
value.  `param_value` is a caller-supplied string (the string-filter use
case fixed by the specification); Python `str == non-str` is `False`. -/
def paramMatch (param_name param_value : String) (isPartial : Bool)
    (element : Element) : Bool :=
  match element.lookupParameter param_name with
  | none => false
  | some targetparam =>
    let value := get_param_value targetparam
    if isPartial && (match value with | .str s => pyIn param_value s | _ => false) then
      true
    else
      match value with
      | .str s => param_value == s
      | _ => false

/-- Embedding of `get_elements_by_parameter` (query.py 202-227): scan all
elements of the document and keep those whose parameter eqKey. -/
def get_elements_by_parameter (param_name param_value : String) (doc : Doc)
    (isPartial : Bool) : List Element :=
  doc.elements.filter (paramMatch param_name param_value isPartial)

/-- Embedding of `get_sheets` (query.py 448-459): all sheets, optionally
dropping non-scheduled sheets and placeholders. -/
def get_sheets (include_placeholders include_noappear : Bool) (doc : Doc) :
    List ViewSheet :=
  let sheets :=
    if include_noappear then doc.sheets
    else doc.sheets.filter (fun x => decide (x.sheetScheduled > 0))
  if include_placeholders then sheets
  else sheets.filter (fun x => !x.isPlaceholder)

/-- Embedding of `get_sheet_by_number` (query.py 558-561): first sheet with
the given number, else `None`; `get_sheets` is called with its defaults. -/
def get_sheet_by_number (sheet_num : String) (doc : Doc) : Option ViewSheet :=
  (get_sheets true true doc).find? (fun x => x.sheetNumber == sheet_num)

/-- Embedding of `get_project_parameters` (query.py 394-412): on a
non-family document, one `ProjectParameter` per parameter binding; on a
family document the binding loop is skipped and the list is empty.  (The
shared-parameter file is consulted only for the `param_ext_def` payload,
which the name/id queries never read.) -/
def get_project_parameters (doc : Doc) : List ProjectParameter :=
  if doc.isFamilyDocument then []
  else doc.paramBindings.map (fun b => ProjectParameter.mk b.1 b.2)

/-- Embedding of `get_project_parameter_id` (query.py 415-419): the id of
the first project parameter with the given name, else a raised
`PyRevitException` naming the parameter. -/
def get_project_parameter_id (param_name : String) (doc : Doc) :
    Except PyErr ℤ :=
  match (get_project_parameters doc).find? (fun p => p.name == param_name) with
  | some p => .ok p.param_id
  | none => .error (.pyRevit ("Parameter not found: " ++ param_name))

/-- Embedding of `get_schedules_on_sheet` (query.py 625-632): the schedule
instances owned by the sheet whose schedule is not a titleblock revision
schedule.  `doc.GetElement(x.ScheduleId).IsTitleblockRevisionSchedule` is
modelled as membership of the schedule id in `doc.titleblockRevScheds`. -/
def get_schedules_on_sheet (doc : Doc) (viewsheet : ViewSheet) :
    List SchedInst :=
  doc.schedInstances.filter (fun x =>
    x.ownerViewId == viewsheet.id &&
    !(doc.titleblockRevScheds.contains x.scheduleId))

/-- Embedding of `is_sheet_empty` (query.py 635-640): false when the sheet
has any viewport or any non-revision sheeted schedule, true otherwise.
Python truthiness of the two collections is non-emptiness; the sheet
document is passed explicitly. -/
def is_sheet_empty (doc : Doc) (viewsheet : ViewSheet) : Bool :=
  let sheet_views := viewsheet.viewports
  let sheet_scheds := get_schedules_on_sheet doc viewsheet
  if !sheet_views.isEmpty || !sheet_scheds.isEmpty then false
  else true

/-- Dynamic Python argument received by `get_param`: either a host
`DB.Element`, whose `LookupParameter` call may return a parameter, return
null, or raise a host exception, or any other value (which fails the
isinstance check). -/
inductive PyObj where
  | element (lookup : String → Except String (Option Nat))
  | nonElement

/-- Dynamic Python value returned by `get_param`: a parameter handle,
`None`, or whatever caller-chosen value was supplied as the default. -/
inductive ParamRet where
  | pynone
  | param (p : Nat)
  | other (v : Nat)
deriving DecidableEq

/-- Embedding of `get_param` (query.py 116-121): only a `DB.Element` enters
the guarded branch; its body returns the lookup result, and the default
only on a raised lookup.  Every other input falls off the function and
returns `None`. -/
def get_param (element : PyObj) (param_name : String) (default : ParamRet) :
    ParamRet :=
  match element with
  | .nonElement => .pynone
  | .element lookup =>
    match lookup param_name with
    | .ok (some p) => .param p
    | .ok none => .pynone
    | .error _ => default

/-- Result record of `get_gridpoints`: the `GridPoint` named tuple
(query.py 62). -/
structure GridPoint (Point Grid : Type) where
  point : Point
  grids : List Grid

/-- Python dict assignment `d[k] = v` on an association list that models
an insertion-ordered dict: an existing key keeps its position and gets the
new value, a new key is appended at the end. -/
def dictInsert {κ α : Type} [DecidableEq κ] (k : κ) (v : α) :
    List (κ × α) → List (κ × α)
  | [] => [(k, v)]
  | (k0, v0) :: rest =>
    if k0 = k then (k0, v) :: rest else (k0, v0) :: dictInsert k v rest

/-- Embedding of `get_gridpoints` (query.py 774-788) for a caller-supplied
grid list.  `intersect g1 g2` stands for the host call
`grid1.Curve.Intersect(grid2.Curve, results)`: `some pt` when the result is
`SetComparisonResult.Overlap` with first intersection point `pt`, `none`
otherwise.  The double loop accumulates a dict keyed by intersection
point whose value is the last-written grid pair. -/
def get_gridpoints {Grid Point : Type} [DecidableEq Point]
    (intersect : Grid → Grid → Option Point) (source_grids : List Grid) :
    List (GridPoint Point Grid) :=
  (source_grids.foldl (fun acc grid1 =>
    source_grids.foldl (fun acc2 grid2 =>
      match intersect grid1 grid2 with
      | some pt => dictInsert pt [grid1, grid2] acc2
      | none => acc2) acc) []).map (fun kv => GridPoint.mk kv.1 kv.2)

/-- Fixture intersection oracle for the C5 witness: three grids 0, 1, 2
pairwise meeting at the distinct points 0, 1, 2; no self-overlap. -/
def triIntersect : Fin 3 → Fin 3 → Option ℕ :=
  fun a b => if a = b then none else some (a.val + b.val - 1)

/-- Fixture for the C1 witness: one element with a string parameter. -/
def c1El : Element := ⟨1, [("Comments", Param.str (some "Hello World"))]⟩

/-- Fixture document for the C1 witness. -/
def c1Doc : Doc := { elements := [c1El] }

/-- Fixture document for the C2 witness: a single sheet numbered A101. -/
def c2Doc : Doc := { sheets := [⟨1, "A101", false, 1, []⟩] }

/-- Fixture document for the C3 witness: one bound project parameter. -/
def c3Doc : Doc := { paramBindings := [("Area", 5)] }

/-- Fixture category for C4: walls with its host id. -/
def c4WallCat : Category := Category.mk "Walls" (-2000011) []

/-- Fixture category for C4: doors. -/
def c4DoorCat : Category := Category.mk "Doors" (-2000023) []

/-- Fixture element for C4: a wall instance. -/
def c4Wall : CatElement := ⟨1, c4WallCat, false⟩

/-- Fixture element for C4: a door instance. -/
def c4Door : CatElement := ⟨2, c4DoorCat, false⟩

/-- Fixture document for C4: both categories known, one wall collected. -/
def c4Doc : Doc :=
  { categories := [c4WallCat, c4DoorCat], catElements := [c4Wall] }

/-- Host built-in category values used by the C4 fixtures. -/
def c4Bics : List ℤ := [-2000011, -2000023]

/-- Argument of `find_workset`: the Python function dispatches on
isinstance over list and str. -/
inductive NameOrList where
  | name (s : String)
  | names (l : List String)

/-- Embedding of `find_workset` (query.py 341-360): first workset whose
name contains (list input, or string input in partial mode) or equals
(string input in exact mode) a queried name; `None` when nothing hits. -/
def find_workset (w : NameOrList) (isPartial : Bool) (doc : Doc) :
    Option Workset :=
  match w with
  | .names lst => doc.worksets.find? (fun ws => lst.any (fun n => pyIn n ws.name))
  | .name n =>
    if isPartial then doc.worksets.find? (fun ws => pyIn n ws.name)
    else doc.worksets.find? (fun ws => n == ws.name)

/-- Dynamic Python value returned by the derived checks: a boolean, `None`,
or a found object (workset / project parameter) passed through. -/
inductive PyRet where
  | bool (b : Bool)
  | pynone
  | workset (w : Workset)
  | projparam (p : ProjectParameter)
deriving DecidableEq

/-- Whether a dynamic return value is a Python boolean. -/
def isBool : PyRet → Bool
  | .bool _ => true
  | _ => false

/-- Embedding of `model_has_workset` (query.py 368-369): it returns the
`find_workset` result unchanged, so the dynamic value is the found workset
object or `None`, never a boolean. -/
def model_has_workset (w : NameOrList) (isPartial : Bool) (doc : Doc) :
    PyRet :=
  match find_workset w isPartial doc with
  | some ws => .workset ws
  | none => .pynone

/-- Embedding of `get_project_parameter` (query.py 422-426): first project
parameter equal to the queried key.  The equality `msp == param_id_or_name`
is implemented by `db.ProjectParameter`, outside this module; it is
abstracted as the predicate `eqKey`, which the shape of the result does
not depend on. -/
def get_project_parameter (eqKey : ProjectParameter → Bool) (doc : Doc) :
    Option ProjectParameter :=
  (get_project_parameters doc).find? eqKey

/-- Embedding of `model_has_parameter` (query.py 429-430): returns the
`get_project_parameter` result unchanged, so the dynamic value is the found
project parameter or `None`, never a boolean. -/
def model_has_parameter (eqKey : ProjectParameter → Bool) (doc : Doc) :
    PyRet :=
  match get_project_parameter eqKey doc with
  | some p => .projparam p
  | none => .pynone

/-- Embedding of `get_all_sheeted_views` (query.py 1073-1080) on the
default sheet list: the ids of the views placed on any sheet via a
viewport.  The Python set only dedupes; membership is unchanged. -/
def get_all_sheeted_views (doc : Doc) : List Nat :=
  (get_sheets true true doc).flatMap (fun sht =>
    sht.viewports.map (fun vp => vp.viewId))

/-- Embedding of `is_view_sheeted` (query.py 1083-1084): Python `in` on
the sheeted-view id set, a genuine boolean. -/
def is_view_sheeted (doc : Doc) (view : View) : Bool :=
  (get_all_sheeted_views doc).contains view.id

/-- Argument of `is_placed`: a spatial element (room / area / space,
carrying its `Area` value) or any other value, which fails the isinstance
check. -/
inductive SpatialElement where
  | room (area : ℚ)
  | area (a : ℚ)
  | space (a : ℚ)
  | other

/-- Embedding of `is_placed` (query.py 1011-1014): the isinstance check
conjoined with `Area > 0`; both operands are booleans, so the Python `and`
yields a boolean. -/
def is_placed : SpatialElement → Bool
  | .room a => decide (a > 0)
  | .area a => decide (a > 0)
  | .space a => decide (a > 0)
  | .other => false

/-- The module constant BUILTINCATEGORIES_VIEW (query.py 56-60): the
view-referencing built-in categories, by host enum value.  The exact
numerals are host-defined; only membership matters here. -/
def BUILTINCATEGORIES_VIEW : List ℤ := [-2000279, -2000480, -2000278]

/-- Embedding of `can_refer_other_views` (query.py 1087-1089): isinstance
against drafting, plan and section views. -/
def can_refer_other_views (source_view : View) : Bool :=
  match source_view.kind with
  | .drafting => true
  | .plan => true
  | .section => true
  | _ => false

/-- Loop predicate of `get_all_referencing_elements_in_view` (query.py
613-622): category present, and `get_builtincategory(el.Category)` lands in
BUILTINCATEGORIES_VIEW.  The argument is the category OBJECT, which eqKey
neither isinstance branch of `get_builtincategory`, so the lookup is always
`None`; the `isinstance(el, DB.Element)` conjunct holds for every collected
element and is modelled as true. -/
def refElMatch (bicValues : List ℤ) (doc : Doc) (el : RefEl) : Bool :=
  match el.category with
  | some c =>
    match get_builtincategory bicValues doc (.categoryObj c) with
    | some b => BUILTINCATEGORIES_VIEW.contains b
    | none => false
  | none => false

/-- The elements kept by `get_all_referencing_elements_in_view`; the
Python function returns their ids, and the `is_referring_to` loop resolves
each id back through `doc.GetElement`, modelled as the identity
round-trip. -/
def get_referencing_elements_in_view (bicValues : List ℤ) (doc : Doc)
    (view : View) : List RefEl :=
  view.elementsInView.filter (refElMatch bicValues doc)

/-- Embedding of `get_all_referencing_elements_in_view` (query.py
613-622): the ids of the kept elements. -/
def get_all_referencing_elements_in_view (bicValues : List ℤ) (doc : Doc)
    (view : View) : List Nat :=
  (get_referencing_elements_in_view bicValues doc view).map (fun el => el.id)

/-- Loop body of `is_referring_to` (query.py 1098-1111): each referencing
element either targets a view via the REFERENCE_VIEWER_TARGET_VIEW
parameter, compared by view name, or is compared by its own name; a hit
returns `True`, exhausting the loop falls off the function and returns
`None`. -/
def referringLoop (doc : Doc) (target_viewname : String) :
    List RefEl → PyRet
  | [] => .pynone
  | viewref_el :: rest =>
    match viewref_el.targetViewParam with
    | some tvid =>
      match doc.views.find? (fun v => v.id == tvid) with
      | some tvp_view =>
        if tvp_view.name == target_viewname then .bool true
        else referringLoop doc target_viewname rest
      | none => referringLoop doc target_viewname rest
    | none =>
      if viewref_el.name == target_viewname then .bool true
      else referringLoop doc target_viewname rest

/-- Embedding of `is_referring_to` (query.py 1092-1111): only drafting,
plan and section views enter the scan; the function returns `True` on a
hit and `None` otherwise. -/
def is_referring_to (bicValues : List ℤ) (doc : Doc)
    (source_view target_view : View) : PyRet :=
  if can_refer_other_views source_view then
    referringLoop doc target_view.name
      (get_referencing_elements_in_view bicValues doc source_view)
  else .pynone

/-- The host application handle consumed by
`get_sharedparam_definition_file`: the configured shared-parameter file
name and the result of `OpenSharedParameterFile` (`none` when opening
fails). -/
structure App where
  sharedParametersFilename : String
  sharedParamFile : Option Nat

/-- Embedding of `get_sharedparam_definition_file` (query.py 372-380):
an unset (empty, falsy) file name raises, a failed open raises, otherwise
the opened file is returned. -/
def get_sharedparam_definition_file (app : App) : Except PyErr Nat :=
  if app.sharedParametersFilename == "" then
    .error (.pyRevit "No Shared Parameters file defined.")
  else
    match app.sharedParamFile with
    | some f => .ok f
    | none => .error (.pyRevit "Failed opening Shared Parameters file.")

/-- External reference record read back from transmission data
(`GetLastSavedReferenceData`). -/
structure ExtRefData where
  refType : ℤ
deriving DecidableEq

/-- The `db.ExternalRef` wrapper over the link element and its external
reference data, as far as `get_links` constructs it. -/
structure ExternalRef where
  link : Option Nat
  extRef : ExtRefData
deriving DecidableEq

/-- Transmission data: the external file reference ids it reports. -/
structure TransData where
  refIds : List Nat
deriving DecidableEq

/-- Host API surface used inside `get_links`: path conversion (falsy
result modelled as `none`) and the two transmission-data reads, either of
which may raise a host exception carrying an error text. -/
structure HostLinks where
  convertPath : String → Option String
  readTransmissionData : String → Except String TransData
  getLastSavedReferenceData : Nat → Except String ExtRefData

/-- Lookup `doc.GetElement(ref_id)` for a link element: null when the id
is unknown to the document. -/
def getElementLink (doc : Doc) (ref_id : Nat) : Option Nat :=
  if doc.linkElements.contains ref_id then some ref_id else none

/-- The try-block of `get_links` (query.py 474-485): read the transmission
data, then fold over the external reference ids collecting
`db.ExternalRef` records, filtered by link type when one is given.  Any
raised host error aborts the block. -/
def linksTryBody (host : HostLinks) (linktype : Option ℤ) (doc : Doc)
    (model_path : String) : Except String (List ExternalRef) := do
  let trans_data ← host.readTransmissionData model_path
  trans_data.refIds.foldlM (fun links ref_id => do
    let ext_ref ← host.getLastSavedReferenceData ref_id
    let link := getElementLink doc ref_id
    match linktype with
    | some lt =>
      if ext_ref.refType == lt then pure (links ++ [ExternalRef.mk link ext_ref])
      else pure links
    | none => pure (links ++ [ExternalRef.mk link ext_ref])) []

/-- Embedding of `get_links` (query.py 462-488): an unsaved document (empty
`PathName`) raises; a falsy model path raises; a host error inside the try
block is re-raised as `PyRevitException` carrying the model path and the
underlying error text. -/
def get_links (host : HostLinks) (linktype : Option ℤ) (doc : Doc) :
    Except PyErr (List ExternalRef) :=
  let location := doc.pathName
  if location == "" then
    .error (.pyRevit "PathName is empty. Model is not saved.")
  else
    match host.convertPath location with
    | none => .error (.pyRevit "Model is not saved. Can not read links.")
    | some model_path =>
      match linksTryBody host linktype doc model_path with
      | .ok links => .ok links
      | .error data_err =>
        .error (.pyRevit ("Error reading links from model path: "
          ++ model_path ++ " | " ++ data_err))

/-- Embedding of `get_family_type` (query.py 1201-1207): on a family
document, the first family type with the given name (or `None`); on any
other document a raised `PyRevitException`. -/
def get_family_type (type_name : String) (family_doc : Doc) :
    Except PyErr (Option String) :=
  if family_doc.isFamilyDocument then
    .ok (family_doc.familyTypes.find? (fun t => t == type_name))
  else .error (.pyRevit "Document is not a family")

/-- Embedding of `get_family_parameter` (query.py 1210-1216): on a family
document, the first family parameter whose definition name eqKey (or
`None`); on any other document a raised `PyRevitException`. -/
def get_family_parameter (param_name : String) (family_doc : Doc) :
    Except PyErr (Option String) :=
  if family_doc.isFamilyDocument then
    .ok (family_doc.familyParams.find? (fun p => p == param_name))
  else .error (.pyRevit "Document is not a family")

/-- Fixture document for C7: one workset with a known name. -/
def c7Doc : Doc := { worksets := [⟨"Shared Levels and Grids"⟩] }

/-- Fixture host oracle for the C8 witness: reading transmission data
raises. -/
def c8Host : HostLinks :=
  { convertPath := fun _ => some "RSN://server/model.rvt"
    readTransmissionData := fun _ => .error "boom"
    getLastSavedReferenceData := fun _ => .error "unused" }

/-- Fixture document for the C8 witness: a saved model. -/
def c8Doc : Doc := { pathName := "C:/model.rvt" }

/-- Fixture app for the C9 witness: no shared-parameter file configured. -/
def c9AppNoFile : App := ⟨"", none⟩

/-- Fixture app for the C9 witness: a configured file that fails to
open. -/
def c9AppBadFile : App := ⟨"C:/shared.txt", none⟩

/-- Fixture document for the C9 witness: never saved, not a family. -/
def c9Doc : Doc := {}

/-- Fixture host oracle for the C9 witness (never reached: the path check
raises first). -/
def c9Host : HostLinks :=
  { convertPath := fun _ => none
    readTransmissionData := fun _ => .error "unused"
    getLastSavedReferenceData := fun _ => .error "unused" }

/-- On an element whose parameter is present and string-valued, the loop
predicate of `get_elements_by_parameter` is: partial mode and substring, or
query equals value. -/
theorem paramMatch_str (param_name param_value s : String) (el : Element)
    (p : Param) (hp : el.lookupParameter param_name = some p)
    (hs : get_param_value p = PyV.str s) (b : Bool) :
    paramMatch param_name param_value b el =
      (b && pyIn param_value s || param_value == s) := by
  unfold paramMatch
  rw [hp]
  simp only [hs]
  cases hc : (b && pyIn param_value s) <;> simp [hc]

/-- C1: for an element whose parameter `param_name` holds a string value
`s`, partial mode returns the element exactly when the query is a substring
of `s`, exact mode exactly when the query equals `s`, and an exact match is
returned by both modes. -/
theorem getElementsByParameter_string_modes
    (doc : Doc) (el : Element) (param_name param_value s : String)
    (p : Param) (hmem : el ∈ doc.elements)
    (hp : el.lookupParameter param_name = some p)
    (hs : get_param_value p = PyV.str s) :
    (el ∈ get_elements_by_parameter param_name param_value doc true ↔
      param_value.data <:+: s.data) ∧
    (el ∈ get_elements_by_parameter param_name param_value doc false ↔
      param_value = s) ∧
    (param_value = s →
      el ∈ get_elements_by_parameter param_name param_value doc true ∧
      el ∈ get_elements_by_parameter param_name param_value doc false) := by
  have hpm := paramMatch_str param_name param_value s el p hp hs
  have h1 : el ∈ get_elements_by_parameter param_name param_value doc true ↔
      param_value.data <:+: s.data := by
    simp only [get_elements_by_parameter, List.mem_filter, hpm true, pyIn,
      Bool.true_and, Bool.or_eq_true, decide_eq_true_eq, beq_iff_eq]
    constructor
    · rintro ⟨-, h | h⟩
      · exact h
      · rw [h]
    · intro h; exact ⟨hmem, Or.inl h⟩
  have h2 : el ∈ get_elements_by_parameter param_name param_value doc false ↔
      param_value = s := by
    simp only [get_elements_by_parameter, List.mem_filter, hpm false, pyIn,
      Bool.false_and, Bool.false_or, beq_iff_eq]
    exact ⟨fun h => h.2, fun h => ⟨hmem, h⟩⟩
  refine ⟨h1, h2, fun he => ⟨h1.mpr ?_, h2.mpr he⟩⟩
  rw [he]

/-- Witness for C1 at a concrete document: the hypotheses hold and the
theorem applies. -/
theorem getElementsByParameter_string_modes_witness :
    (c1El ∈ c1Doc.elements) ∧
    (c1El.lookupParameter "Comments" = some (Param.str (some "Hello World"))) ∧
    (get_param_value (Param.str (some "Hello World")) = PyV.str "Hello World") ∧
    ((c1El ∈ get_elements_by_parameter "Comments" "World" c1Doc true ↔
      "World".data <:+: "Hello World".data) ∧
    (c1El ∈ get_elements_by_parameter "Comments" "World" c1Doc false ↔
      "World" = "Hello World") ∧
    ("World" = "Hello World" →
      c1El ∈ get_elements_by_parameter "Comments" "World" c1Doc true ∧
      c1El ∈ get_elements_by_parameter "Comments" "World" c1Doc false)) :=
  ⟨by decide, by decide, by decide,
    getElementsByParameter_string_modes c1Doc c1El "Comments" "World"
      "Hello World" (Param.str (some "Hello World"))
      (by decide) (by decide) (by decide)⟩

/-- C2: looking up a sheet number that no sheet of the document carries
yields `None` (and, the embedding being a total function into `Option`, no
error). -/
theorem getSheetByNumber_absent (doc : Doc) (num : String)
    (h : ∀ s ∈ doc.sheets, s.sheetNumber ≠ num) :
    get_sheet_by_number num doc = none := by
  apply List.find?_eq_none.mpr
  intro x hx
  simp only [get_sheets, if_true] at hx
  simp [h x hx]

/-- Witness for C2: no sheet is numbered Z999, and the lookup is `none`. -/
theorem getSheetByNumber_absent_witness :
    (∀ s ∈ c2Doc.sheets, s.sheetNumber ≠ "Z999") ∧
    get_sheet_by_number "Z999" c2Doc = none :=
  ⟨by decide, getSheetByNumber_absent c2Doc "Z999" (by decide)⟩

/-- C3: when no project parameter carries the queried name, the lookup
raises `PyRevitException` whose message names the parameter, rather than
returning an absent value. -/
theorem getProjectParameterId_missing (doc : Doc) (param_name : String)
    (h : ∀ p ∈ get_project_parameters doc, p.name ≠ param_name) :
    get_project_parameter_id param_name doc =
      Except.error (PyErr.pyRevit ("Parameter not found: " ++ param_name)) := by
  have hf : (get_project_parameters doc).find?
      (fun p => p.name == param_name) = none := by
    apply List.find?_eq_none.mpr
    intro x hx
    simp [h x hx]
  simp [get_project_parameter_id, hf]

/-- Witness for C3: the name Height eqKey no project parameter, and the
lookup returns the raised domain error naming it. -/
theorem getProjectParameterId_missing_witness :
    (∀ p ∈ get_project_parameters c3Doc, p.name ≠ "Height") ∧
    get_project_parameter_id "Height" c3Doc =
      Except.error (PyErr.pyRevit ("Parameter not found: " ++ "Height")) :=
  ⟨by decide, getProjectParameterId_missing c3Doc "Height" (by decide)⟩

/-- Counterexample to C4 as stated: for the caller-supplied empty list the
function does not return the empty sublist; Python `if elements:` is falsy
on `[]`, so the call falls through to the document collector and returns a
model element instead. -/
theorem getElementsByCategory_empty_input_counterexample :
    get_elements_by_category c4Bics [-2000011] (some []) c4Doc = [c4Wall] ∧
    ([c4Wall] : List CatElement) ≠ [] := by
  constructor
  · rfl
  · simp

/-- C4 (amended to non-empty caller lists): for every non-empty
caller-supplied element list, the result is exactly the sublist of
elements whose category name maps to one of the given built-in categories,
in input order. -/
theorem getElementsByCategory_supplied (bicValues element_bicats : List ℤ)
    (doc : Doc) (els : List CatElement) (hne : els ≠ []) :
    get_elements_by_category bicValues element_bicats (some els) doc =
      els.filter (catElMatch bicValues element_bicats doc) := by
  cases els with
  | nil => exact absurd rfl hne
  | cons e rest => rfl

/-- Witness for C4 at a concrete two-element list: the wall is kept, the
door (whose category is not requested) is dropped, order preserved. -/
theorem getElementsByCategory_supplied_witness :
    ([c4Wall, c4Door] : List CatElement) ≠ [] ∧
    get_elements_by_category c4Bics [-2000011] (some [c4Wall, c4Door]) c4Doc =
      [c4Wall, c4Door].filter (catElMatch c4Bics [-2000011] c4Doc) ∧
    [c4Wall, c4Door].filter (catElMatch c4Bics [-2000011] c4Doc) = [c4Wall] :=
  ⟨by simp,
   getElementsByCategory_supplied c4Bics [-2000011] c4Doc [c4Wall, c4Door]
     (by simp),
   rfl⟩

/-- C6: a sheet is reported empty exactly when it has no viewports and no
sheeted schedule instance other than titleblock revision schedules, and
adding a single viewport to any sheet makes it non-empty. -/
theorem isSheetEmpty_iff (doc : Doc) (vs : ViewSheet) :
    (is_sheet_empty doc vs = true ↔
      vs.viewports = [] ∧
      ∀ si ∈ doc.schedInstances, si.ownerViewId = vs.id →
        si.scheduleId ∈ doc.titleblockRevScheds) ∧
    (∀ vp : Viewport,
      is_sheet_empty doc { vs with viewports := vp :: vs.viewports } = false) := by
  constructor
  · have h : is_sheet_empty doc vs = true ↔
        (vs.viewports.isEmpty && (get_schedules_on_sheet doc vs).isEmpty) = true := by
      unfold is_sheet_empty
      cases hv : vs.viewports.isEmpty <;>
        cases hs : (get_schedules_on_sheet doc vs).isEmpty <;> simp [hv, hs]
    rw [h]
    simp only [Bool.and_eq_true, List.isEmpty_iff, get_schedules_on_sheet,
      List.filter_eq_nil_iff, Bool.not_eq_true, Bool.and_eq_false_iff,
      beq_iff_eq]
    constructor
    · rintro ⟨hv, hs⟩
      refine ⟨hv, fun si hsi hown => ?_⟩
      by_contra hnot
      exact hs si hsi ⟨hown, by simpa using hnot⟩
    · rintro ⟨hv, hs⟩
      refine ⟨hv, fun si hsi => ?_⟩
      rintro ⟨hown, hnc⟩
      have hmem := hs si hsi hown
      simp only [Bool.not_eq_true'] at hnc
      simp only [List.contains_eq_any_beq, List.any_eq_false] at hnc
      exact hnc _ hmem (by simp)
  · intro vp
    simp [is_sheet_empty]

/-- C10: a non-element argument makes `get_param` return `None` whatever
the default; on a `DB.Element`, the result is independent of the default
unless the lookup raises, in which case the default is returned. -/
theorem get_param_semantics :
    (∀ (name : String) (d : ParamRet),
      get_param PyObj.nonElement name d = ParamRet.pynone) ∧
    (∀ (lookup : String → Except String (Option Nat)) (name : String)
        (d₁ d₂ : ParamRet) (v : Option Nat), lookup name = Except.ok v →
      get_param (PyObj.element lookup) name d₁ =
        get_param (PyObj.element lookup) name d₂) ∧
    (∀ (lookup : String → Except String (Option Nat)) (name : String)
        (d : ParamRet) (e : String), lookup name = Except.error e →
      get_param (PyObj.element lookup) name d = d) := by
  refine ⟨fun name d => rfl, ?_, ?_⟩
  · intro lookup name d₁ d₂ v hv
    simp only [get_param]
    rw [hv]
    cases v <;> rfl
  · intro lookup name d e he
    simp only [get_param]
    rw [he]

/-- Witness for C10: a raising lookup hands back the default, a succeeding
lookup ignores it, a non-element yields `None`. -/
theorem get_param_semantics_witness :
    ((fun _ : String => (Except.error "host failure" : Except String (Option Nat)))
        "Mark" = Except.error "host failure") ∧
    get_param (PyObj.element (fun _ => Except.error "host failure")) "Mark"
      (ParamRet.other 7) = ParamRet.other 7 ∧
    ((fun _ : String => (Except.ok (some 3) : Except String (Option Nat)))
        "Mark" = Except.ok (some 3)) ∧
    get_param (PyObj.element (fun _ => Except.ok (some 3))) "Mark"
        (ParamRet.other 7) =
      get_param (PyObj.element (fun _ => Except.ok (some 3))) "Mark"
        ParamRet.pynone ∧
    get_param PyObj.nonElement "Mark" (ParamRet.other 7) = ParamRet.pynone :=
  ⟨rfl,
   get_param_semantics.2.2 _ "Mark" (ParamRet.other 7) "host failure" rfl,
   rfl,
   get_param_semantics.2.1 _ "Mark" (ParamRet.other 7) ParamRet.pynone
     (some 3) rfl,
   get_param_semantics.1 "Mark" (ParamRet.other 7)⟩

/-- C5: three grids whose curves pairwise overlap in three distinct points
produce exactly three grid points with pairwise distinct points, each
carrying precisely the two grids meeting there; every pairwise
intersection point is represented. -/
theorem getGridpoints_triangle {Grid Point : Type} [DecidableEq Point]
    (intersect : Grid → Grid → Option Point) (g1 g2 g3 : Grid)
    (p12 p13 p23 : Point)
    (h11 : intersect g1 g1 = none) (h22 : intersect g2 g2 = none)
    (h33 : intersect g3 g3 = none)
    (h12 : intersect g1 g2 = some p12) (h21 : intersect g2 g1 = some p12)
    (h13 : intersect g1 g3 = some p13) (h31 : intersect g3 g1 = some p13)
    (h23 : intersect g2 g3 = some p23) (h32 : intersect g3 g2 = some p23)
    (hne1 : p12 ≠ p13) (hne2 : p12 ≠ p23) (hne3 : p13 ≠ p23) :
    (get_gridpoints intersect [g1, g2, g3]).length = 3 ∧
    ((get_gridpoints intersect [g1, g2, g3]).map GridPoint.point).Nodup ∧
    (∀ gp ∈ get_gridpoints intersect [g1, g2, g3],
      (gp.point = p12 ∧ (gp.grids = [g1, g2] ∨ gp.grids = [g2, g1])) ∨
      (gp.point = p13 ∧ (gp.grids = [g1, g3] ∨ gp.grids = [g3, g1])) ∨
      (gp.point = p23 ∧ (gp.grids = [g2, g3] ∨ gp.grids = [g3, g2]))) ∧
    (∃ gp ∈ get_gridpoints intersect [g1, g2, g3], gp.point = p12) ∧
    (∃ gp ∈ get_gridpoints intersect [g1, g2, g3], gp.point = p13) ∧
    (∃ gp ∈ get_gridpoints intersect [g1, g2, g3], gp.point = p23) := by
  have hr : get_gridpoints intersect [g1, g2, g3] =
      [GridPoint.mk p12 [g2, g1], GridPoint.mk p13 [g3, g1],
       GridPoint.mk p23 [g3, g2]] := by
    simp only [get_gridpoints, List.foldl_cons, List.foldl_nil,
      h11, h12, h13, h21, h22, h23, h31, h32, h33]
    simp [dictInsert, hne1, hne2, hne3]
  rw [hr]
  refine ⟨rfl, ?_, ?_, ?_, ?_, ?_⟩
  · simp [hne1, hne2, hne3]
  · intro gp hgp
    simp only [List.mem_cons, List.not_mem_nil, or_false] at hgp
    rcases hgp with rfl | rfl | rfl
    · exact Or.inl ⟨rfl, Or.inr rfl⟩
    · exact Or.inr (Or.inl ⟨rfl, Or.inr rfl⟩)
    · exact Or.inr (Or.inr ⟨rfl, Or.inr rfl⟩)
  · exact ⟨GridPoint.mk p12 [g2, g1], by simp, rfl⟩
  · exact ⟨GridPoint.mk p13 [g3, g1], by simp, rfl⟩
  · exact ⟨GridPoint.mk p23 [g3, g2], by simp, rfl⟩

/-- Witness for C5 on the concrete triangle fixture: hypotheses hold by
evaluation, and the conclusion follows from the theorem. -/
theorem getGridpoints_triangle_witness :
    triIntersect 0 0 = none ∧ triIntersect 1 1 = none ∧
    triIntersect 2 2 = none ∧
    triIntersect 0 1 = some 0 ∧ triIntersect 1 0 = some 0 ∧
    triIntersect 0 2 = some 1 ∧ triIntersect 2 0 = some 1 ∧
    triIntersect 1 2 = some 2 ∧ triIntersect 2 1 = some 2 ∧
    ((0 : ℕ) ≠ 1) ∧ ((0 : ℕ) ≠ 2) ∧ ((1 : ℕ) ≠ 2) ∧
    ((get_gridpoints triIntersect [0, 1, 2]).length = 3 ∧
    ((get_gridpoints triIntersect [0, 1, 2]).map GridPoint.point).Nodup ∧
    (∀ gp ∈ get_gridpoints triIntersect [0, 1, 2],
      (gp.point = 0 ∧ (gp.grids = [0, 1] ∨ gp.grids = [1, 0])) ∨
      (gp.point = 1 ∧ (gp.grids = [0, 2] ∨ gp.grids = [2, 0])) ∨
      (gp.point = 2 ∧ (gp.grids = [1, 2] ∨ gp.grids = [2, 1]))) ∧
    (∃ gp ∈ get_gridpoints triIntersect [0, 1, 2], gp.point = 0) ∧
    (∃ gp ∈ get_gridpoints triIntersect [0, 1, 2], gp.point = 1) ∧
    (∃ gp ∈ get_gridpoints triIntersect [0, 1, 2], gp.point = 2)) :=
  ⟨rfl, rfl, rfl, rfl, rfl, rfl, rfl, rfl, rfl,
   by decide, by decide, by decide,
   getGridpoints_triangle triIntersect 0 1 2 0 1 2
     rfl rfl rfl rfl rfl rfl rfl rfl rfl
     (by decide) (by decide) (by decide)⟩

/-- Exhausting the `is_referring_to` scan falls off the Python function:
the loop returns `True` on a hit and otherwise the overall value is
`None`. -/
theorem referringLoop_shape (doc : Doc) (n : String) (l : List RefEl) :
    referringLoop doc n l = PyRet.pynone ∨
    referringLoop doc n l = PyRet.bool true := by
  induction l with
  | nil => exact Or.inl rfl
  | cons el rest ih =>
    simp only [referringLoop]
    split
    · split
      · split
        · exact Or.inr rfl
        · exact ih
      · exact ih
    · split
      · exact Or.inr rfl
      · exact ih

/-- Counterexample to C7 as stated: on a document carrying the queried
workset, `model_has_workset` returns the workset object itself, which is
not a boolean value. -/
theorem modelHasWorkset_not_boolean_counterexample :
    model_has_workset (.name "Shared Levels and Grids") false c7Doc =
      PyRet.workset ⟨"Shared Levels and Grids"⟩ ∧
    isBool (PyRet.workset ⟨"Shared Levels and Grids"⟩) = false :=
  ⟨by decide, rfl⟩

/-- C7 (amended): every derived check returns a truthy/falsy dynamic
value; `is_view_sheeted`, `is_sheet_empty` and `is_placed` are booleans for
every input, while `model_has_workset` and `model_has_parameter` return
the found object or `None`, and `is_referring_to` returns `True` or
`None`. -/
theorem derivedChecks_return_shapes :
    (∀ (w : NameOrList) (b : Bool) (doc : Doc),
      model_has_workset w b doc = PyRet.pynone ∨
      ∃ ws, model_has_workset w b doc = PyRet.workset ws) ∧
    (∀ (eqKey : ProjectParameter → Bool) (doc : Doc),
      model_has_parameter eqKey doc = PyRet.pynone ∨
      ∃ pp, model_has_parameter eqKey doc = PyRet.projparam pp) ∧
    (∀ (bicValues : List ℤ) (doc : Doc) (sv tv : View),
      is_referring_to bicValues doc sv tv = PyRet.pynone ∨
      is_referring_to bicValues doc sv tv = PyRet.bool true) ∧
    (∀ (doc : Doc) (v : View),
      is_view_sheeted doc v = true ∨ is_view_sheeted doc v = false) ∧
    (∀ (doc : Doc) (vs : ViewSheet),
      is_sheet_empty doc vs = true ∨ is_sheet_empty doc vs = false) ∧
    (∀ s : SpatialElement, is_placed s = true ∨ is_placed s = false) := by
  refine ⟨?_, ?_, ?_, ?_, ?_, ?_⟩
  · intro w b doc
    rcases h : find_workset w b doc with _ | ws
    · exact Or.inl (by simp [model_has_workset, h])
    · exact Or.inr ⟨ws, by simp [model_has_workset, h]⟩
  · intro eqKey doc
    rcases h : get_project_parameter eqKey doc with _ | pp
    · exact Or.inl (by simp [model_has_parameter, h])
    · exact Or.inr ⟨pp, by simp [model_has_parameter, h]⟩
  · intro bicValues doc sv tv
    unfold is_referring_to
    split
    · exact referringLoop_shape doc tv.name _
    · exact Or.inl rfl
  · intro doc v
    cases h : is_view_sheeted doc v
    · exact Or.inr rfl
    · exact Or.inl rfl
  · intro doc vs
    cases h : is_sheet_empty doc vs
    · exact Or.inr rfl
    · exact Or.inl rfl
  · intro s
    cases h : is_placed s
    · exact Or.inr rfl
    · exact Or.inl rfl

/-- C8: `get_links` never surfaces a host exception type, and a host
failure inside the transmission-data read is re-raised as
`PyRevitException` whose message carries the model path and the underlying
error text. -/
theorem getLinks_wraps_host_errors (host : HostLinks) (linktype : Option ℤ)
    (doc : Doc) :
    (∀ e, get_links host linktype doc ≠ Except.error (PyErr.host e)) ∧
    (∀ model_path data_err,
      doc.pathName ≠ "" →
      host.convertPath doc.pathName = some model_path →
      linksTryBody host linktype doc model_path = Except.error data_err →
      get_links host linktype doc = Except.error (PyErr.pyRevit
        ("Error reading links from model path: " ++ model_path ++ " | "
          ++ data_err))) := by
  constructor
  · intro e
    simp only [get_links]
    split
    · simp
    · split
      · simp
      · split
        · simp
        · simp
  · intro model_path data_err hpath hconv hbody
    have hb : (doc.pathName == "") = false := beq_eq_false_iff_ne.mpr hpath
    simp only [get_links, hb, Bool.false_eq_true, if_false, hconv, hbody]

/-- Witness for C8 on the fixture host whose transmission-data read
raises: the wrapped domain error carries path and error text. -/
theorem getLinks_wraps_host_errors_witness :
    (c8Doc.pathName ≠ "") ∧
    (c8Host.convertPath c8Doc.pathName = some "RSN://server/model.rvt") ∧
    (linksTryBody c8Host none c8Doc "RSN://server/model.rvt" =
      Except.error "boom") ∧
    get_links c8Host none c8Doc = Except.error (PyErr.pyRevit
      ("Error reading links from model path: " ++ "RSN://server/model.rvt"
        ++ " | " ++ "boom")) :=
  ⟨by decide, rfl, rfl,
   (getLinks_wraps_host_errors c8Host none c8Doc).2 "RSN://server/model.rvt"
     "boom" (by decide) rfl rfl⟩

/-- C9: each documented precondition violation raises the named domain
error: unset shared-parameter file, failed shared-parameter file open,
unsaved document in `get_links`, non-family document in `get_family_type`
and `get_family_parameter`. -/
theorem precondition_violations_raise (app : App) (host : HostLinks)
    (linktype : Option ℤ) (doc : Doc) (n : String) :
    (app.sharedParametersFilename = "" →
      get_sharedparam_definition_file app =
        Except.error (PyErr.pyRevit "No Shared Parameters file defined.")) ∧
    (app.sharedParametersFilename ≠ "" → app.sharedParamFile = none →
      get_sharedparam_definition_file app =
        Except.error (PyErr.pyRevit "Failed opening Shared Parameters file.")) ∧
    (doc.pathName = "" →
      get_links host linktype doc =
        Except.error (PyErr.pyRevit "PathName is empty. Model is not saved.")) ∧
    (doc.isFamilyDocument = false →
      get_family_type n doc =
        Except.error (PyErr.pyRevit "Document is not a family")) ∧
    (doc.isFamilyDocument = false →
      get_family_parameter n doc =
        Except.error (PyErr.pyRevit "Document is not a family")) := by
  refine ⟨?_, ?_, ?_, ?_, ?_⟩
  · intro h
    simp [get_sharedparam_definition_file, h]
  · intro h1 h2
    have hb : (app.sharedParametersFilename == "") = false :=
      beq_eq_false_iff_ne.mpr h1
    simp [get_sharedparam_definition_file, hb, h2]
  · intro h
    simp [get_links, h]
  · intro h
    simp [get_family_type, h]
  · intro h
    simp [get_family_parameter, h]

/-- Witness for C9 on concrete fixtures, covering all five raising
branches. -/
theorem precondition_violations_raise_witness :
    (c9AppNoFile.sharedParametersFilename = "") ∧
    get_sharedparam_definition_file c9AppNoFile =
      Except.error (PyErr.pyRevit "No Shared Parameters file defined.") ∧
    (c9AppBadFile.sharedParametersFilename ≠ "") ∧
    (c9AppBadFile.sharedParamFile = none) ∧
    get_sharedparam_definition_file c9AppBadFile =
      Except.error (PyErr.pyRevit "Failed opening Shared Parameters file.") ∧
    (c9Doc.pathName = "") ∧
    get_links c9Host none c9Doc =
      Except.error (PyErr.pyRevit "PathName is empty. Model is not saved.") ∧
    (c9Doc.isFamilyDocument = false) ∧
    get_family_type "Type 1" c9Doc =
      Except.error (PyErr.pyRevit "Document is not a family") ∧
    get_family_parameter "Width" c9Doc =
      Except.error (PyErr.pyRevit "Document is not a family") :=
  ⟨rfl,
   (precondition_violations_raise c9AppNoFile c9Host none c9Doc "Type 1").1 rfl,
   by decide, rfl,
   (precondition_violations_raise c9AppBadFile c9Host none c9Doc
     "Type 1").2.1 (by decide) rfl,
   rfl,
   (precondition_violations_raise c9AppNoFile c9Host none c9Doc
     "Type 1").2.2.1 rfl,
   rfl,
   (precondition_violations_raise c9AppNoFile c9Host none c9Doc
     "Type 1").2.2.2.1 rfl,
   (precondition_violations_raise c9AppNoFile c9Host none c9Doc
     "Width").2.2.2.2 rfl⟩

end Query
